import Mathlib

/-!
Shallow embedding of the Notion → Ecomail synchronization core (`sync.mjs`).

JavaScript values that can be `null`/`undefined`, a number, or a string are
modelled with the `JSVal` type below; `null` and `undefined` are collapsed
into one constructor because the source only ever tests them together
(`status === null || status === undefined`).  Optional JS object fields are
modelled with `Option`; a JS array is a Lean `List`.  The per-contact loop
body of `main()` is embedded as the pure function `processContact`, with the
network modelled by an explicit environment that supplies each response.
-/

/-- Model of the JS values that flow through `normalizeEcomailStatus`:
`null`/`undefined`, a number, a string, or any other JS value. -/
inductive JSVal where
  | null
  | num (n : Int)
  | str (s : String)
  | other
deriving Repr, DecidableEq

/-- `ECOMAIL_STATUS.SUBSCRIBED` (sync.mjs line 11). -/
def ECOMAIL_STATUS_SUBSCRIBED : Int := 1
/-- `ECOMAIL_STATUS.UNSUBSCRIBED` (sync.mjs line 12). -/
def ECOMAIL_STATUS_UNSUBSCRIBED : Int := 2
/-- `ECOMAIL_STATUS.HARD_BOUNCE` (sync.mjs line 13). -/
def ECOMAIL_STATUS_HARD_BOUNCE : Int := 4
/-- `ECOMAIL_STATUS.SPAM_COMPLAINT` (sync.mjs line 14). -/
def ECOMAIL_STATUS_SPAM_COMPLAINT : Int := 5
/-- `ECOMAIL_STATUS.UNCONFIRMED` (sync.mjs line 15). -/
def ECOMAIL_STATUS_UNCONFIRMED : Int := 6

/-- The lookup table `STATUS_STRING_TO_CODE` (sync.mjs lines 19-25), as a
finite map from mnemonic strings to numeric status codes. -/
def STATUS_STRING_TO_CODE (s : String) : Option Int :=
  if s = "SUBSCRIBED" then some 1
  else if s = "UNSUBSCRIBED" then some 2
  else if s = "HARD_BOUNCE" then some 4
  else if s = "SPAM_COMPLAINT" then some 5
  else if s = "UNCONFIRMED" then some 6
  else none

/-- `normalizeEcomailStatus` (sync.mjs lines 31-47).  `null`/`undefined`
becomes the string `'NOT_FOUND'`; a number is returned as is; a string is
looked up in `STATUS_STRING_TO_CODE` (all codes in the table are truthy, so
`STATUS_STRING_TO_CODE[status] || status` returns the code on a hit and the
original string on a miss); any other value is returned unchanged.  The
function is total by construction. -/
def normalizeEcomailStatus : JSVal → JSVal
  | .null => .str "NOT_FOUND"
  | .num n => .num n
  | .str s =>
    match STATUS_STRING_TO_CODE s with
    | some code => .num code
    | none => .str s
  | .other => .other

/-- Lexicographic `≤` on character lists, comparing code points — the order
used by the JS default `Array.prototype.sort` on the ASCII tag strings this
program handles. -/
def charListLe : List Char → List Char → Bool
  | [], _ => true
  | _ :: _, [] => false
  | a :: as, b :: bs =>
    if a < b then true
    else if b < a then false
    else charListLe as bs

/-- String comparison used when sorting tag arrays. -/
def strLeJs (a b : String) : Bool := charListLe a.toList b.toList

/-- Insert a string into an already sorted list. -/
def insertSorted (x : String) : List String → List String
  | [] => [x]
  | y :: ys => if strLeJs x y then x :: y :: ys else y :: insertSorted x ys

/-- The JS default `Array.prototype.sort` on an array of strings, as a pure
function from the array's contents to the sorted contents. -/
def jsSortList (l : List String) : List String := l.foldr insertSorted []

/-- Splits a character list on a separator character; mirrors
`String.prototype.split` in that `n` separators yield `n + 1` groups. -/
def splitOnChar (sep : Char) : List Char → List (List Char)
  | [] => [[]]
  | c :: rest =>
    let r := splitOnChar sep rest
    if c = sep then [] :: r
    else
      match r with
      | [] => [[c]]
      | g :: gs => (c :: g) :: gs

/-- JS `String.prototype.trim`: strip whitespace from both ends. -/
def trimJs (s : String) : String :=
  ⟨((s.toList.dropWhile Char.isWhitespace).reverse.dropWhile Char.isWhitespace).reverse⟩

/-- The regular expression `/^[^\s@]+@[^\s@]+\.[^\s@]+$/` of `isValidEmail`
(sync.mjs line 118): exactly one `@`; a nonempty whitespace-free local part;
a whitespace-free domain containing a `.` that is neither its first nor its
last character. -/
def emailRegexTest (s : String) : Bool :=
  match splitOnChar '@' s.toList with
  | [l, d] =>
    !l.isEmpty && l.all (fun c => !c.isWhitespace) &&
    d.all (fun c => !c.isWhitespace) && ((d.drop 1).dropLast.contains '.')
  | _ => false

/-- `isValidEmail` (sync.mjs lines 116-120): a falsy argument (`null`,
`undefined`, the empty string) is invalid; otherwise the trimmed string is
tested against the email regex. -/
def isValidEmail (email : Option String) : Bool :=
  match email with
  | none => false
  | some s => if s = "" then false else emailRegexTest (trimJs s)

/-- JS truthiness of a nullable string (`!contact.email` and
`if (contact.name)` checks). -/
def truthyStr : Option String → Bool
  | none => false
  | some s => s != ""

/-- JS `x || null` on a nullable string: the empty string collapses to
`null`.  Also models `if (x) obj.f = x`, which stores `x` exactly when it is
truthy. -/
def orNull : Option String → Option String
  | none => none
  | some s => if s = "" then none else some s

/-- The contact record built by `extractContactData` (sync.mjs lines
186-194). -/
structure Contact where
  email : Option String
  name : Option String
  surname : Option String
  company : Option String
  tags : Option (List String)
  subscribe : Bool
  subscribeRaw : Option String
deriving Repr, DecidableEq

/-- The subscriber object returned by the Ecomail lookup
(`fetchEcomailSubscriber`), restricted to the fields the sync reads. -/
structure Subscriber where
  status : JSVal
  tags : Option (List String)
  name : Option String
  surname : Option String
  company : Option String
deriving Repr, DecidableEq

/-- The fields of a Notion page that `extractContactData` reads.
`marketingSelectName = none` models the `Marketingový status` property being
missing or not of `select` type (both leave `subscribeValue` at `null`);
`some v` models a present select property with `select?.name = v`. -/
structure NotionPage where
  email : Option String
  jmeno : Option String
  prijmeni : Option String
  firma : Option String
  tagNames : List String
  marketingSelectName : Option (Option String)
deriving Repr, DecidableEq

/-- `extractContactData` (sync.mjs lines 150-195): the tags multiselect is
kept even when empty; `subscribeValue` is the select name or `null`;
`subscribe` is `subscribeValue === 'Ano'`. -/
def extractContactData (p : NotionPage) : Contact :=
  let subscribeValue : Option String :=
    match p.marketingSelectName with
    | none => none
    | some nm => orNull nm
  { email := orNull p.email
    name := orNull p.jmeno
    surname := orNull p.prijmeni
    company := orNull p.firma
    tags := some p.tagNames
    subscribe := subscribeValue = some "Ano"
    subscribeRaw := subscribeValue }

/-- The tag-comparison block of `needsEcomailUpdate` (sync.mjs lines
240-253) as a pure function of the two arrays' contents: both sides are
sorted (the source sorts spread copies), then the lengths are compared and,
when equal, the elements are compared position by position. -/
def tagsDiffer (notionTags ecomailTags : List String) : Bool :=
  let a := jsSortList notionTags
  let b := jsSortList ecomailTags
  if a.length ≠ b.length then true else a != b

/-- One of the `if (notionContact.f && notionContact.f !== subscriber.f)`
comparisons of sync.mjs lines 257-259: a difference counts only when the
contact's value is truthy. -/
def fieldNeedsUpdate (cv sv : Option String) : Bool :=
  match cv with
  | none => false
  | some v => v != "" && some v != sv

/-- `needsEcomailUpdate` (sync.mjs lines 231-262): a missing subscriber
always needs an update; otherwise the tags are compared whenever the
contact's tags value is an array (`Array.isArray`), with the subscriber's
missing tags defaulting to `[]` (`ecomailSubscriber?.tags || []`), and the
name/surname/company fields are compared only when the contact's value is
truthy. -/
def needsEcomailUpdate (c : Contact) (s? : Option Subscriber) : Bool :=
  match s? with
  | none => true
  | some s =>
    (match c.tags with
     | some nt => tagsDiffer nt (s.tags.getD [])
     | none => false) ||
    fieldNeedsUpdate c.name s.name ||
    fieldNeedsUpdate c.surname s.surname ||
    fieldNeedsUpdate c.company s.company

/-- The `subscriber_data` object sent to Ecomail; fields the source omits
from the object are `none`. -/
structure SubscriberData where
  email : Option String
  status : Int
  name : Option String
  surname : Option String
  company : Option String
deriving Repr, DecidableEq

/-- The body of the `POST /lists/{id}/subscribe` request built by
`addToEcomail` (sync.mjs lines 271-293).  `tags = none` means the field is
absent from the payload; `some []` is an explicitly present empty array. -/
structure SubscribePayload where
  subscriber_data : SubscriberData
  update_existing : Bool
  resubscribe : Bool
  trigger_autoresponders : Bool
  skip_confirmation : Bool
  tags : Option (List String)
deriving Repr, DecidableEq

/-- The body of the `PUT /lists/{id}/update-subscriber` request built by
`unsubscribeFromEcomail` and `updateUnsubscribedContact`. -/
structure UpdatePayload where
  subscriber_data : SubscriberData
  tags : Option (List String)
deriving Repr, DecidableEq

/-- The payload construction of `addToEcomail` (sync.mjs lines 268-305):
status `SUBSCRIBED`, name/surname/company only when truthy, the resubscribe
flags set, and the tags field present whenever `contact.tags` is defined —
including when it is the empty array. -/
def addToEcomailPayload (c : Contact) : SubscribePayload :=
  { subscriber_data :=
      { email := c.email
        status := ECOMAIL_STATUS_SUBSCRIBED
        name := orNull c.name
        surname := orNull c.surname
        company := orNull c.company }
    update_existing := true
    resubscribe := true
    trigger_autoresponders := true
    skip_confirmation := true
    tags := c.tags }

/-- The payload construction of `unsubscribeFromEcomail` (sync.mjs lines
315-320): only the email and the `UNSUBSCRIBED` status code. -/
def unsubscribeFromEcomailPayload (email : String) : UpdatePayload :=
  { subscriber_data :=
      { email := some email
        status := ECOMAIL_STATUS_UNSUBSCRIBED
        name := none
        surname := none
        company := none }
    tags := none }

/-- The payload construction of `updateUnsubscribedContact` (sync.mjs lines
341-358): the `UNSUBSCRIBED` status code is carried explicitly, truthy
name/surname/company are included, and the tags field is present whenever
`contact.tags` is defined (even the empty array). -/
def updateUnsubscribedContactPayload (c : Contact) : UpdatePayload :=
  { subscriber_data :=
      { email := c.email
        status := ECOMAIL_STATUS_UNSUBSCRIBED
        name := orNull c.name
        surname := orNull c.surname
        company := orNull c.company }
    tags := c.tags }

/-!
## Array heap

To state the frame property of the tag comparison (the source sorts spread
copies, never the caller's arrays) the arrays are given explicit identities:
a heap maps references to array contents, `[...a]` allocates a fresh
reference, and `.sort()` sorts its receiver in place.
-/

/-- A heap of string arrays; reference `r` holds `arrays[r]`. -/
structure Heap where
  arrays : List (List String)
deriving Repr, DecidableEq

/-- Read the array a reference denotes. -/
def Heap.get (h : Heap) (r : Nat) : List String := h.arrays.getD r []

/-- Overwrite the array a reference denotes. -/
def Heap.set (h : Heap) (r : Nat) (v : List String) : Heap :=
  ⟨h.arrays.set r v⟩

/-- Allocate a fresh array, returning the new heap and its reference. -/
def Heap.alloc (h : Heap) (v : List String) : Heap × Nat :=
  (⟨h.arrays ++ [v]⟩, h.arrays.length)

/-- JS `[...a]`: allocate a fresh array with the same contents. -/
def spreadCopy (h : Heap) (r : Nat) : Heap × Nat := h.alloc (h.get r)

/-- JS `arr.sort()`: sort the receiver in place and return its reference. -/
def sortInPlace (h : Heap) (r : Nat) : Heap × Nat :=
  (h.set r (jsSortList (h.get r)), r)

/-- The tag-comparison block of `needsEcomailUpdate` (sync.mjs lines
240-253) over the array heap, exactly as written in the source:
`const notionTags = [...notionContact.tags].sort();` and
`const ecomailTags = [...(ecomailSubscriber?.tags || [])].sort();` — the
receiver of each `.sort()` is the freshly allocated spread copy — followed
by the length check and the element-wise comparison. -/
def compareTagsOnHeap (h : Heap) (contactTagsRef subscriberTagsRef : Nat) :
    Bool × Heap :=
  let c1 := spreadCopy h contactTagsRef
  let s1 := sortInPlace c1.1 c1.2
  let c2 := spreadCopy s1.1 subscriberTagsRef
  let s2 := sortInPlace c2.1 c2.2
  let notionTags := s2.1.get s1.2
  let ecomailTags := s2.1.get s2.2
  (if notionTags.length ≠ ecomailTags.length then true
   else notionTags != ecomailTags, s2.1)

/-!
## Resilient request client
-/

/-- What one attempt of `fetchWithTimeout` yields: a response with some HTTP
status, or a thrown transport error (timeout, connection failure, …). -/
inductive AttemptOutcome where
  | response (status : Nat)
  | failure
deriving Repr, DecidableEq

/-- How a call to `fetchWithRetry` can terminate: by returning a response,
by raising an error, or by falling off the retry loop and returning
`undefined`. -/
inductive RetryResult where
  | returned (status : Nat)
  | raised
  | returnedUndefined
deriving Repr, DecidableEq

/-- The retry loop of `fetchWithRetry` (sync.mjs lines 84-110).  `env n` is
the outcome of attempt `n`; `remaining = maxRetries - attempt` counts the
iterations the `for` loop still has.  A 429 response waits and continues; any
other response is returned; a thrown error is re-raised on the last attempt
and otherwise waited out; when the loop condition `attempt < maxRetries`
fails the function body ends, returning `undefined`. -/
def retryLoop (env : Nat → AttemptOutcome) (maxRetries : Nat) :
    Nat → Nat → RetryResult
  | _, 0 => .returnedUndefined
  | attempt, r + 1 =>
    match env attempt with
    | .response 429 => retryLoop env maxRetries (attempt + 1) r
    | .response s => .returned s
    | .failure =>
      if attempt = maxRetries - 1 then .raised
      else retryLoop env maxRetries (attempt + 1) r

/-- `fetchWithRetry(url, options, maxRetries)` (sync.mjs line 83), starting
from attempt 0 with the full budget. -/
def fetchWithRetry (env : Nat → AttemptOutcome) (maxRetries : Nat) :
    RetryResult :=
  retryLoop env maxRetries 0 maxRetries

/-!
## Sync orchestrator (the per-contact body of `main`, sync.mjs lines 416-519)
-/

/-- The Ecomail requests the loop body can issue. -/
inductive EcomailCall where
  | fetchSubscriber (email : String)
  | subscribeCall (p : SubscribePayload)
  | updateSubscriberCall (p : UpdatePayload)
deriving Repr, DecidableEq

/-- Whether a call mutates the target (anything but the GET lookup). -/
def EcomailCall.isMutation : EcomailCall → Bool
  | .fetchSubscriber _ => false
  | .subscribeCall _ => true
  | .updateSubscriberCall _ => true

/-- The path the loop body takes for one contact.  The names follow the
spec's `SyncAction` vocabulary; each constructor labels one branch of the
source. -/
inductive SyncAction where
  | reject
  | fetchError
  | skipUnset
  | skipNoChange
  | createOrUpdate
  | skipAlreadyUnsubscribed
  | updateKeepUnsubscribed
  | unsubscribeAction
deriving Repr, DecidableEq

/-- A mutation response as the loop body reads it: the HTTP-level `ok` flag
and whether the parsed JSON body carries a truthy `error` member. -/
structure MutationResponse where
  ok : Bool
  bodyError : Bool
deriving Repr, DecidableEq

/-- The network environment for one iteration: what the subscriber lookup
yields (`Except.error` models `fetchEcomailSubscriber` throwing, `Except.ok
none` a 404, `Except.ok (some s)` a found subscriber) and what the mutation
request, if one is issued, yields. -/
structure ContactEnv where
  fetchResult : Except Unit (Option Subscriber)
  mutationResult : Except Unit MutationResponse
deriving Repr

/-- What one iteration of the loop did: the branch taken, the deltas to the
four counters (`successCount`, `errorCount`, `skippedCount`,
`unsubscribedCount`), the Ecomail calls issued, and whether the iteration
reached the `await delay(100)` at the bottom of the loop body (a `continue`
statement skips it). -/
structure ContactOutcome where
  action : SyncAction
  dSuccess : Nat
  dError : Nat
  dSkipped : Nat
  dUnsubscribed : Nat
  calls : List EcomailCall
  delayed : Bool
deriving Repr, DecidableEq

/-- `ecomailSubscriber?.status`: `undefined` when the lookup returned no
subscriber. -/
def statusOfFetch : Option Subscriber → JSVal
  | none => .null
  | some s => s.status

/-- One iteration of the per-contact loop of `main` (sync.mjs lines
416-519), with `contact = extractContactData(page)` already applied.
Mirrors the source order: the email guard (line 420, `continue` without
delay), the subscriber fetch and status normalization (lines 428-429, any
thrown error lands in the `catch` at line 512 and then reaches the delay),
the `subscribeRaw === null` guard (line 433, `continue` without delay), the
subscribe branch with its no-change skip (line 441, `continue` without
delay) and upsert, and the unsubscribe side with its update-while-
unsubscribed, already-unsubscribed skip (falls through to the delay), and
unsubscribe paths.  Each mutation response is classified exactly as in the
source: non-ok → failure; ok with a truthy body `error` → failure; ok
otherwise → the success counter of that path. -/
def processContact (c : Contact) (env : ContactEnv) : ContactOutcome :=
  if !truthyStr c.email || !isValidEmail c.email then
    { action := .reject, dSuccess := 0, dError := 1, dSkipped := 0,
      dUnsubscribed := 0, calls := [], delayed := false }
  else
    match env.fetchResult with
    | .error _ =>
      { action := .fetchError, dSuccess := 0, dError := 1, dSkipped := 0,
        dUnsubscribed := 0, calls := [.fetchSubscriber (c.email.getD "")],
        delayed := true }
    | .ok sub? =>
      if c.subscribeRaw = none then
        { action := .skipUnset, dSuccess := 0, dError := 0, dSkipped := 1,
          dUnsubscribed := 0, calls := [.fetchSubscriber (c.email.getD "")],
          delayed := false }
      else if c.subscribe then
        if normalizeEcomailStatus (statusOfFetch sub?) =
              .num ECOMAIL_STATUS_SUBSCRIBED ∧
            ¬ needsEcomailUpdate c sub? then
          { action := .skipNoChange, dSuccess := 0, dError := 0,
            dSkipped := 1, dUnsubscribed := 0,
            calls := [.fetchSubscriber (c.email.getD "")], delayed := false }
        else
          match env.mutationResult with
          | .error _ =>
            { action := .createOrUpdate, dSuccess := 0, dError := 1,
              dSkipped := 0, dUnsubscribed := 0,
              calls := [.fetchSubscriber (c.email.getD ""),
                        .subscribeCall (addToEcomailPayload c)],
              delayed := true }
          | .ok r =>
            if r.ok then
              if r.bodyError then
                { action := .createOrUpdate, dSuccess := 0, dError := 1,
                  dSkipped := 0, dUnsubscribed := 0,
                  calls := [.fetchSubscriber (c.email.getD ""),
                            .subscribeCall (addToEcomailPayload c)],
                  delayed := true }
              else
                { action := .createOrUpdate, dSuccess := 1, dError := 0,
                  dSkipped := 0, dUnsubscribed := 0,
                  calls := [.fetchSubscriber (c.email.getD ""),
                            .subscribeCall (addToEcomailPayload c)],
                  delayed := true }
            else
              { action := .createOrUpdate, dSuccess := 0, dError := 1,
                dSkipped := 0, dUnsubscribed := 0,
                calls := [.fetchSubscriber (c.email.getD ""),
                          .subscribeCall (addToEcomailPayload c)],
                delayed := true }
      else
        if normalizeEcomailStatus (statusOfFetch sub?) =
              .num ECOMAIL_STATUS_UNSUBSCRIBED ∨
            normalizeEcomailStatus (statusOfFetch sub?) =
              .str "NOT_FOUND" then
          if normalizeEcomailStatus (statusOfFetch sub?) =
                .num ECOMAIL_STATUS_UNSUBSCRIBED ∧
              needsEcomailUpdate c sub? then
            match env.mutationResult with
            | .error _ =>
              { action := .updateKeepUnsubscribed, dSuccess := 0,
                dError := 1, dSkipped := 0, dUnsubscribed := 0,
                calls := [.fetchSubscriber (c.email.getD ""),
                          .updateSubscriberCall
                            (updateUnsubscribedContactPayload c)],
                delayed := true }
            | .ok r =>
              if r.ok then
                if r.bodyError then
                  { action := .updateKeepUnsubscribed, dSuccess := 0,
                    dError := 1, dSkipped := 0, dUnsubscribed := 0,
                    calls := [.fetchSubscriber (c.email.getD ""),
                              .updateSubscriberCall
                                (updateUnsubscribedContactPayload c)],
                    delayed := true }
                else
                  { action := .updateKeepUnsubscribed, dSuccess := 1,
                    dError := 0, dSkipped := 0, dUnsubscribed := 0,
                    calls := [.fetchSubscriber (c.email.getD ""),
                              .updateSubscriberCall
                                (updateUnsubscribedContactPayload c)],
                    delayed := true }
              else
                { action := .updateKeepUnsubscribed, dSuccess := 0,
                  dError := 1, dSkipped := 0, dUnsubscribed := 0,
                  calls := [.fetchSubscriber (c.email.getD ""),
                            .updateSubscriberCall
                              (updateUnsubscribedContactPayload c)],
                  delayed := true }
          else
            { action := .skipAlreadyUnsubscribed, dSuccess := 0,
              dError := 0, dSkipped := 1, dUnsubscribed := 0,
              calls := [.fetchSubscriber (c.email.getD "")],
              delayed := true }
        else
          match env.mutationResult with
          | .error _ =>
            { action := .unsubscribeAction, dSuccess := 0, dError := 1,
              dSkipped := 0, dUnsubscribed := 0,
              calls := [.fetchSubscriber (c.email.getD ""),
                        .updateSubscriberCall
                          (unsubscribeFromEcomailPayload (c.email.getD ""))],
              delayed := true }
          | .ok r =>
            if r.ok then
              if r.bodyError then
                { action := .unsubscribeAction, dSuccess := 0, dError := 1,
                  dSkipped := 0, dUnsubscribed := 0,
                  calls := [.fetchSubscriber (c.email.getD ""),
                            .updateSubscriberCall
                              (unsubscribeFromEcomailPayload
                                (c.email.getD ""))],
                  delayed := true }
              else
                { action := .unsubscribeAction, dSuccess := 0, dError := 0,
                  dSkipped := 0, dUnsubscribed := 1,
                  calls := [.fetchSubscriber (c.email.getD ""),
                            .updateSubscriberCall
                              (unsubscribeFromEcomailPayload
                                (c.email.getD ""))],
                  delayed := true }
            else
              { action := .unsubscribeAction, dSuccess := 0, dError := 1,
                dSkipped := 0, dUnsubscribed := 0,
                calls := [.fetchSubscriber (c.email.getD ""),
                          .updateSubscriberCall
                            (unsubscribeFromEcomailPayload
                              (c.email.getD ""))],
                delayed := true }


/-!
## Theorems
-/

/-- C5: For every raw status input, the status normalizer is total and never
throws (it is a total Lean function): `null`/`undefined` maps to the
`NOT_FOUND` marker, the integer 1 maps to the `Subscribed` code, the string
`"UNSUBSCRIBED"` maps to the `Unsubscribed` code 2, `"BOGUS"` is returned
unchanged, and in general any string outside the mnemonic table passes
through unchanged as an opaque value. -/
theorem normalizeEcomailStatus_spec :
    normalizeEcomailStatus .null = .str "NOT_FOUND" ∧
    normalizeEcomailStatus (.num 1) = .num ECOMAIL_STATUS_SUBSCRIBED ∧
    normalizeEcomailStatus (.str "UNSUBSCRIBED") =
      .num ECOMAIL_STATUS_UNSUBSCRIBED ∧
    normalizeEcomailStatus (.str "BOGUS") = .str "BOGUS" ∧
    ∀ s : String, STATUS_STRING_TO_CODE s = none →
      normalizeEcomailStatus (.str s) = .str s := by
  refine ⟨by decide, by decide, by decide, by decide, ?_⟩
  intro s h
  simp [normalizeEcomailStatus, h]

/-- Witness for C5's pass-through clause at the concrete unmapped string
`"WHATEVER"`. -/
theorem normalizeEcomailStatus_spec_witness :
    normalizeEcomailStatus (.str "WHATEVER") = .str "WHATEVER" :=
  normalizeEcomailStatus_spec.2.2.2.2 "WHATEVER" (by decide)

/-- C10: The status normalizer is idempotent — normalizing an
already-normalized value (a numeric code, the `NOT_FOUND` marker, or an
opaque pass-through value) returns it unchanged. -/
theorem normalizeEcomailStatus_idempotent :
    ∀ x : JSVal,
      normalizeEcomailStatus (normalizeEcomailStatus x) =
        normalizeEcomailStatus x := by
  intro x
  cases x with
  | null => decide
  | num n => rfl
  | str s =>
    cases h : STATUS_STRING_TO_CODE s with
    | none => simp [normalizeEcomailStatus, h]
    | some c => simp [normalizeEcomailStatus, h]
  | other => rfl

/-- C3: evaluation of `fetchWithRetry` at the failing input where every
attempt in the budget of 3 yields HTTP 429: the loop exhausts its attempts
and the function falls off the end, returning `undefined` instead of
re-raising an error — while an execution whose attempts all throw does
re-raise on the last attempt. -/
theorem fetchWithRetry_all429_returns_undefined :
    fetchWithRetry (fun _ => .response 429) 3 = .returnedUndefined ∧
    fetchWithRetry (fun _ => .failure) 3 = .raised := by
  decide

/-- C6: For a contact with intent `OptIn`, empty source tags, and an
existing target subscriber with status `Subscribed` and tags `["x"]`, the
diff reports a difference and the upsert payload's tags field is explicitly
the empty array, not omitted. -/
theorem tagClearing_diff_and_explicit_empty_payload :
    needsEcomailUpdate
      ⟨some "a@x.com", none, none, none, some [], true, some "Ano"⟩
      (some ⟨.num 1, some ["x"], none, none, none⟩) = true ∧
    (addToEcomailPayload
      ⟨some "a@x.com", none, none, none, some [], true, some "Ano"⟩).tags
      = some [] ∧
    (addToEcomailPayload
      ⟨some "a@x.com", none, none, none, some [], true, some "Ano"⟩).tags
      ≠ none := by
  decide

/-- C9: For every contact whose email is missing or malformed, the loop body
takes the `Reject` branch: the failed counter (`errorCount`) is incremented
by exactly 1, no other counter moves, and no Ecomail call of any kind —
neither the lookup nor a mutation — is issued for that contact; the loop
then continues with the next contact. -/
theorem invalid_email_rejected_without_calls :
    ∀ (c : Contact) (env : ContactEnv),
      truthyStr c.email = false ∨ isValidEmail c.email = false →
      (processContact c env).action = .reject ∧
      (processContact c env).calls = [] ∧
      (processContact c env).dError = 1 ∧
      (processContact c env).dSuccess = 0 ∧
      (processContact c env).dSkipped = 0 ∧
      (processContact c env).dUnsubscribed = 0 := by
  intro c env h
  have hcond : (!truthyStr c.email || !isValidEmail c.email) = true := by
    rcases h with h | h <;> simp [h]
  simp [processContact, hcond]

/-- Witness for C9, at the contact whose email is the malformed
`"not-an-email"`. -/
theorem invalid_email_rejected_without_calls_witness :
    (processContact
        ⟨some "not-an-email", none, none, none, some [], true, some "Ano"⟩
        ⟨.ok none, .ok ⟨true, false⟩⟩).action = .reject ∧
    (processContact
        ⟨some "not-an-email", none, none, none, some [], true, some "Ano"⟩
        ⟨.ok none, .ok ⟨true, false⟩⟩).calls = [] ∧
    (processContact
        ⟨some "not-an-email", none, none, none, some [], true, some "Ano"⟩
        ⟨.ok none, .ok ⟨true, false⟩⟩).dError = 1 ∧
    (processContact
        ⟨some "not-an-email", none, none, none, some [], true, some "Ano"⟩
        ⟨.ok none, .ok ⟨true, false⟩⟩).dSuccess = 0 ∧
    (processContact
        ⟨some "not-an-email", none, none, none, some [], true, some "Ano"⟩
        ⟨.ok none, .ok ⟨true, false⟩⟩).dSkipped = 0 ∧
    (processContact
        ⟨some "not-an-email", none, none, none, some [], true, some "Ano"⟩
        ⟨.ok none, .ok ⟨true, false⟩⟩).dUnsubscribed = 0 :=
  invalid_email_rejected_without_calls _ _ (Or.inr (by decide))

/-- C4: On every mutation path the loop body can take — upsert-subscribe,
update-while-unsubscribed, and unsubscribe — a response whose HTTP status is
ok but whose body encodes an application-level error object is classified as
a failure: the failed counter is incremented and no success counter is. -/
theorem mutation_bodyError_is_failure_on_all_paths :
    ∀ (c : Contact) (env : ContactEnv) (r : MutationResponse),
      env.mutationResult = .ok r → r.ok = true → r.bodyError = true →
      (processContact c env).action = .createOrUpdate ∨
        (processContact c env).action = .updateKeepUnsubscribed ∨
        (processContact c env).action = .unsubscribeAction →
      (processContact c env).dError = 1 ∧
      (processContact c env).dSuccess = 0 ∧
      (processContact c env).dUnsubscribed = 0 ∧
      (processContact c env).dSkipped = 0 := by
  intro c env r hm hok hbody hact
  by_cases hcond : (!truthyStr c.email || !isValidEmail c.email) = true
  · simp [processContact, hcond] at hact
  · rcases hf : env.fetchResult with e | sub?
    · simp [processContact, hcond, hf] at hact
    · by_cases h2 : c.subscribeRaw = none
      · simp [processContact, hcond, hf, h2] at hact
      · cases h3 : c.subscribe with
        | true =>
          by_cases h4 : normalizeEcomailStatus (statusOfFetch sub?) =
              JSVal.num ECOMAIL_STATUS_SUBSCRIBED ∧
              needsEcomailUpdate c sub? = false
          · simp [processContact, hcond, hf, h2, h3, h4] at hact
          · simp [processContact, hcond, hf, h2, h3, h4, hm, hok, hbody]
        | false =>
          by_cases h5 : normalizeEcomailStatus (statusOfFetch sub?) =
              JSVal.num ECOMAIL_STATUS_UNSUBSCRIBED ∨
              normalizeEcomailStatus (statusOfFetch sub?) =
                JSVal.str "NOT_FOUND"
          · by_cases h6 : normalizeEcomailStatus (statusOfFetch sub?) =
                JSVal.num ECOMAIL_STATUS_UNSUBSCRIBED ∧
                needsEcomailUpdate c sub? = true
            · simp [processContact, hcond, hf, h2, h3, h5, h6, hm, hok,
                hbody]
            · simp [processContact, hcond, hf, h2, h3, h5, h6] at hact
          · simp [processContact, hcond, hf, h2, h3, h5, hm, hok, hbody]

/-- Witness for C4 on the upsert path: an ok response whose body carries an
error object counts as a failure. -/
theorem mutation_bodyError_is_failure_on_all_paths_witness :
    (processContact
        ⟨some "a@x.com", none, none, none, some [], true, some "Ano"⟩
        ⟨.ok none, .ok ⟨true, true⟩⟩).dError = 1 ∧
    (processContact
        ⟨some "a@x.com", none, none, none, some [], true, some "Ano"⟩
        ⟨.ok none, .ok ⟨true, true⟩⟩).dSuccess = 0 ∧
    (processContact
        ⟨some "a@x.com", none, none, none, some [], true, some "Ano"⟩
        ⟨.ok none, .ok ⟨true, true⟩⟩).dUnsubscribed = 0 ∧
    (processContact
        ⟨some "a@x.com", none, none, none, some [], true, some "Ano"⟩
        ⟨.ok none, .ok ⟨true, true⟩⟩).dSkipped = 0 :=
  mutation_bodyError_is_failure_on_all_paths _ _ ⟨true, true⟩ rfl rfl rfl
    (Or.inl (by decide))

/-- C2 counterexample: an iteration that rejects a contact for an invalid
email reaches the next contact through `continue` (sync.mjs line 423),
skipping the `await delay(100)` at the bottom of the loop body — so the
pacing delay is not awaited on every iteration. -/
theorem pacing_delay_skipped_on_rejection :
    (processContact
        ⟨some "bad-email", none, none, none, some [], false, some "Ne"⟩
        ⟨.ok none, .ok ⟨true, false⟩⟩).action = .reject ∧
    (processContact
        ⟨some "bad-email", none, none, none, some [], false, some "Ne"⟩
        ⟨.ok none, .ok ⟨true, false⟩⟩).delayed = false := by
  decide

/-- C2 amended: the pacing delay is awaited before the next contact exactly
on the iterations that do not `continue` early — mutation attempts (success
or failure), per-contact fetch errors, and the already-unsubscribed
no-changes skip; iterations ending in a rejection, an unset-intent skip, or
a subscribed-no-changes skip reach the next contact without the delay. -/
theorem pacing_delay_iff_no_early_continue :
    ∀ (c : Contact) (env : ContactEnv),
      (processContact c env).delayed = false ↔
        (processContact c env).action = .reject ∨
        (processContact c env).action = .skipUnset ∨
        (processContact c env).action = .skipNoChange := by
  intro c env
  unfold processContact
  repeat' split <;> try simp

/-- C7: For a contact on the opt-out side (`subscribe` false with the intent
field set) whose fetched subscriber normalizes to `Unsubscribed` and whose
attributes differ, the loop body takes the update-while-unsubscribed path:
the single mutation issued is the `update-subscriber` call whose payload
carries the source tags verbatim and explicitly carries the unsubscribed
status code, so the update never resubscribes. -/
theorem optOut_unsubscribed_diff_updates_keeping_unsubscribed :
    ∀ (c : Contact) (s : Subscriber) (env : ContactEnv),
      truthyStr c.email = true → isValidEmail c.email = true →
      c.subscribeRaw ≠ none → c.subscribe = false →
      env.fetchResult = .ok (some s) →
      normalizeEcomailStatus s.status = .num ECOMAIL_STATUS_UNSUBSCRIBED →
      needsEcomailUpdate c (some s) = true →
      (processContact c env).action = .updateKeepUnsubscribed ∧
      (processContact c env).calls =
        [.fetchSubscriber (c.email.getD ""),
         .updateSubscriberCall (updateUnsubscribedContactPayload c)] ∧
      (updateUnsubscribedContactPayload c).subscriber_data.status =
        ECOMAIL_STATUS_UNSUBSCRIBED ∧
      (updateUnsubscribedContactPayload c).tags = c.tags := by
  intro c s env he hv hraw hsub hf hst hupd
  refine ⟨?_, ?_, rfl, rfl⟩ <;>
    rcases hmm : env.mutationResult with e | r <;>
      simp [processContact, he, hv, hraw, hsub, hf, hmm, statusOfFetch,
        hst, hupd] <;>
      repeat' split <;> try simp

/-- Witness for C7 at the claim's scenario: source tags `["vip"]`, target
status `Unsubscribed` with tags `[]`. -/
theorem optOut_unsubscribed_diff_updates_keeping_unsubscribed_witness :
    (processContact
        ⟨some "a@x.com", none, none, none, some ["vip"], false, some "Ne"⟩
        ⟨.ok (some ⟨.num 2, some [], none, none, none⟩),
         .ok ⟨true, false⟩⟩).action = .updateKeepUnsubscribed ∧
    (processContact
        ⟨some "a@x.com", none, none, none, some ["vip"], false, some "Ne"⟩
        ⟨.ok (some ⟨.num 2, some [], none, none, none⟩),
         .ok ⟨true, false⟩⟩).calls =
      [.fetchSubscriber "a@x.com",
       .updateSubscriberCall (updateUnsubscribedContactPayload
         ⟨some "a@x.com", none, none, none, some ["vip"], false,
          some "Ne"⟩)] ∧
    (updateUnsubscribedContactPayload
        ⟨some "a@x.com", none, none, none, some ["vip"], false,
         some "Ne"⟩).subscriber_data.status = ECOMAIL_STATUS_UNSUBSCRIBED ∧
    (updateUnsubscribedContactPayload
        ⟨some "a@x.com", none, none, none, some ["vip"], false,
         some "Ne"⟩).tags = some ["vip"] :=
  optOut_unsubscribed_diff_updates_keeping_unsubscribed _
    ⟨.num 2, some [], none, none, none⟩ _ (by decide) (by decide)
    (by decide) rfl rfl (by decide) (by decide)

/-- C1 counterexample: a contact whose intent-field value is set to
`"Maybe"` — neither the recognized opt-in value `"Ano"` nor the recognized
opt-out value `"Ne"` — is not mapped to `Unset`: with the target subscriber
currently `Subscribed`, the loop body issues an unsubscribe mutation for
it. -/
theorem unrecognized_intent_value_triggers_unsubscribe :
    (extractContactData
        ⟨some "u@x.com", none, none, none, [],
         some (some "Maybe")⟩).subscribeRaw = some "Maybe" ∧
    "Maybe" ≠ "Ano" ∧ "Maybe" ≠ "Ne" ∧
    (processContact
        (extractContactData
          ⟨some "u@x.com", none, none, none, [], some (some "Maybe")⟩)
        ⟨.ok (some ⟨.num 1, some [], none, none, none⟩),
         .ok ⟨true, false⟩⟩).calls.any EcomailCall.isMutation = true ∧
    (processContact
        (extractContactData
          ⟨some "u@x.com", none, none, none, [], some (some "Maybe")⟩)
        ⟨.ok (some ⟨.num 1, some [], none, none, none⟩),
         .ok ⟨true, false⟩⟩).action = .unsubscribeAction := by
  decide

/-- C1 amended: the intent field maps the recognized opt-in value `"Ano"` to
opt-in and a missing, non-select, null, or empty value to `Unset`; a contact
whose intent is `Unset` is skipped and never triggers a target mutation.
Any other set value — the recognized `"Ne"` and unrecognized values alike —
is treated as opt-out (and may therefore trigger an unsubscribe
mutation). -/
theorem intent_mapping_and_unset_never_mutates :
    (∀ p : NotionPage,
      (extractContactData p).subscribeRaw = none ↔
        p.marketingSelectName = none ∨ p.marketingSelectName = some none ∨
        p.marketingSelectName = some (some "")) ∧
    (∀ p : NotionPage,
      (extractContactData p).subscribe = true ↔
        p.marketingSelectName = some (some "Ano")) ∧
    (∀ (c : Contact) (env : ContactEnv), c.subscribeRaw = none →
      (processContact c env).calls.all (fun k => !k.isMutation) = true) ∧
    (∀ (p : NotionPage) (v : String),
      p.marketingSelectName = some (some v) → v ≠ "Ano" → v ≠ "" →
      (extractContactData p).subscribe = false ∧
      (extractContactData p).subscribeRaw = some v) := by
  refine ⟨?_, ?_, ?_, ?_⟩
  · intro p
    rcases hms : p.marketingSelectName with _ | nm
    · simp [extractContactData, hms]
    · rcases nm with _ | s
      · simp [extractContactData, hms, orNull]
      · by_cases hs : s = ""
        · subst hs; simp [extractContactData, hms, orNull]
        · simp [extractContactData, hms, orNull, hs]
  · intro p
    rcases hms : p.marketingSelectName with _ | nm
    · simp [extractContactData, hms]
    · rcases nm with _ | s
      · simp [extractContactData, hms, orNull]
      · by_cases hs : s = ""
        · subst hs; simp [extractContactData, hms, orNull]
        · simp [extractContactData, hms, orNull, hs]
  · intro c env h
    by_cases hcond : (!truthyStr c.email || !isValidEmail c.email) = true
    · simp [processContact, hcond]
    · rcases hf : env.fetchResult with e | sub?
      · simp [processContact, hcond, hf, EcomailCall.isMutation]
      · simp [processContact, hcond, hf, h, EcomailCall.isMutation]
  · intro p v hms hvAno hvEmpty
    simp [extractContactData, hms, orNull, hvAno, hvEmpty]

/-- Witness for C1's amended claim: an unset intent issues no mutation, and
the set unrecognized value `"Maybe"` is mapped to the opt-out side with its
raw value preserved. -/
theorem intent_mapping_and_unset_never_mutates_witness :
    (processContact
        ⟨some "u@x.com", none, none, none, some [], false, none⟩
        ⟨.ok none, .ok ⟨true, false⟩⟩).calls.all (fun k => !k.isMutation)
      = true ∧
    (extractContactData
        ⟨some "u@x.com", none, none, none, [],
         some (some "Maybe")⟩).subscribe = false ∧
    (extractContactData
        ⟨some "u@x.com", none, none, none, [],
         some (some "Maybe")⟩).subscribeRaw = some "Maybe" :=
  ⟨intent_mapping_and_unset_never_mutates.2.2.1 _ _ rfl,
   (intent_mapping_and_unset_never_mutates.2.2.2 _ "Maybe" rfl (by decide)
     (by decide)).1,
   (intent_mapping_and_unset_never_mutates.2.2.2 _ "Maybe" rfl (by decide)
     (by decide)).2⟩

/-- Reading inside the left part of an appended list ignores the suffix. -/
theorem getD_append_of_lt {α : Type} (l t : List α) (j : Nat) (d : α)
    (hj : j < l.length) : (l ++ t).getD j d = l.getD j d := by
  induction l generalizing j with
  | nil => simp at hj
  | cons a l ih =>
    cases j with
    | zero => simp
    | succ j => simpa using ih j (by simpa using hj)

/-- Reading an appended list exactly at the length of its left part yields
the appended element. -/
theorem getD_append_length {α : Type} (l : List α) (a d : α) :
    (l ++ [a]).getD l.length d = a := by
  induction l with
  | nil => rfl
  | cons b l ih => simp

/-- Writing an appended list exactly at the length of its left part replaces
the appended element. -/
theorem set_append_length {α : Type} (l : List α) (a x : α) :
    (l ++ [a]).set l.length x = l ++ [x] := by
  induction l with
  | nil => rfl
  | cons b l ih => simp [ih]

/-- The heap after the tag-comparison block: the two sorted spread copies
are appended; nothing else changes. -/
theorem compareTagsOnHeap_arrays (l : List (List String)) (r1 r2 : Nat)
    (h2 : r2 < l.length) :
    (compareTagsOnHeap ⟨l⟩ r1 r2).2.arrays =
      l ++ [jsSortList (l.getD r1 []), jsSortList (l.getD r2 [])] := by
  have e1 : spreadCopy ⟨l⟩ r1 = (⟨l ++ [l.getD r1 []]⟩, l.length) := rfl
  have e2 : sortInPlace ⟨l ++ [l.getD r1 []]⟩ l.length =
      (⟨l ++ [jsSortList (l.getD r1 [])]⟩, l.length) := by
    simp only [sortInPlace, Heap.set, Heap.get]
    rw [getD_append_length, set_append_length]
  have e3 : spreadCopy ⟨l ++ [jsSortList (l.getD r1 [])]⟩ r2 =
      (⟨(l ++ [jsSortList (l.getD r1 [])]) ++ [l.getD r2 []]⟩,
       (l ++ [jsSortList (l.getD r1 [])]).length) := by
    simp only [spreadCopy, Heap.alloc, Heap.get]
    rw [getD_append_of_lt _ _ _ _ h2]
  have e4 : sortInPlace
      ⟨(l ++ [jsSortList (l.getD r1 [])]) ++ [l.getD r2 []]⟩
      ((l ++ [jsSortList (l.getD r1 [])]).length) =
      (⟨(l ++ [jsSortList (l.getD r1 [])]) ++ [jsSortList (l.getD r2 [])]⟩,
       (l ++ [jsSortList (l.getD r1 [])]).length) := by
    simp only [sortInPlace, Heap.set, Heap.get]
    rw [getD_append_length, set_append_length]
  simp only [compareTagsOnHeap, e1, e2, e3, e4]
  simp [List.append_assoc]

/-- C8: The tag comparison of the attribute diff leaves both caller arrays
unchanged — the source sorts the spread copies `[...notionContact.tags]` and
`[...(ecomailSubscriber?.tags || [])]`, never the originals, so after the
call every pre-existing reference still holds the same elements in the same
order. -/
theorem tag_comparison_preserves_caller_arrays :
    ∀ (h : Heap) (r1 r2 : Nat),
      r1 < h.arrays.length → r2 < h.arrays.length →
      (compareTagsOnHeap h r1 r2).2.get r1 = h.get r1 ∧
      (compareTagsOnHeap h r1 r2).2.get r2 = h.get r2 := by
  intro h r1 r2 h1 h2
  obtain ⟨l⟩ := h
  have harr := compareTagsOnHeap_arrays l r1 r2 h2
  constructor
  · show (compareTagsOnHeap ⟨l⟩ r1 r2).2.arrays.getD r1 [] = l.getD r1 []
    rw [harr, getD_append_of_lt _ _ _ _ h1]
  · show (compareTagsOnHeap ⟨l⟩ r1 r2).2.arrays.getD r2 [] = l.getD r2 []
    rw [harr, getD_append_of_lt _ _ _ _ h2]

/-- Witness for C8 at the claim's example: the caller's array `["b", "a"]`
(and the subscriber's `["x"]`) are unchanged, in particular the original
order `["b", "a"]` survives the sorted comparison. -/
theorem tag_comparison_preserves_caller_arrays_witness :
    ((compareTagsOnHeap ⟨[["b", "a"], ["x"]]⟩ 0 1).2.get 0 =
        Heap.get ⟨[["b", "a"], ["x"]]⟩ 0 ∧
      (compareTagsOnHeap ⟨[["b", "a"], ["x"]]⟩ 0 1).2.get 1 =
        Heap.get ⟨[["b", "a"], ["x"]]⟩ 1) ∧
    Heap.get ⟨[["b", "a"], ["x"]]⟩ 0 = ["b", "a"] :=
  ⟨tag_comparison_preserves_caller_arrays ⟨[["b", "a"], ["x"]]⟩ 0 1
      (by decide) (by decide),
   by decide⟩


/-- The Boolean the heap-level tag comparison computes coincides with the
pure `tagsDiffer` that `needsEcomailUpdate` applies to the same contents. -/
theorem compareTagsOnHeap_fst_eq_tagsDiffer (l : List (List String))
    (r1 r2 : Nat) (h2 : r2 < l.length) :
    (compareTagsOnHeap ⟨l⟩ r1 r2).1 =
      tagsDiffer (l.getD r1 []) (l.getD r2 []) := by
  have e1 : spreadCopy ⟨l⟩ r1 = (⟨l ++ [l.getD r1 []]⟩, l.length) := rfl
  have e2 : sortInPlace ⟨l ++ [l.getD r1 []]⟩ l.length =
      (⟨l ++ [jsSortList (l.getD r1 [])]⟩, l.length) := by
    simp only [sortInPlace, Heap.set, Heap.get]
    rw [getD_append_length, set_append_length]
  have e3 : spreadCopy ⟨l ++ [jsSortList (l.getD r1 [])]⟩ r2 =
      (⟨(l ++ [jsSortList (l.getD r1 [])]) ++ [l.getD r2 []]⟩,
       (l ++ [jsSortList (l.getD r1 [])]).length) := by
    simp only [spreadCopy, Heap.alloc, Heap.get]
    rw [getD_append_of_lt _ _ _ _ h2]
  have e4 : sortInPlace
      ⟨(l ++ [jsSortList (l.getD r1 [])]) ++ [l.getD r2 []]⟩
      ((l ++ [jsSortList (l.getD r1 [])]).length) =
      (⟨(l ++ [jsSortList (l.getD r1 [])]) ++ [jsSortList (l.getD r2 [])]⟩,
       (l ++ [jsSortList (l.getD r1 [])]).length) := by
    simp only [sortInPlace, Heap.set, Heap.get]
    rw [getD_append_length, set_append_length]
  simp only [compareTagsOnHeap, e1, e2, e3, e4, Heap.get, tagsDiffer]
  rw [getD_append_of_lt _ _ _ _ (by simp), getD_append_length,
    getD_append_length]
